import Mathlib

/-!
Verification of the SV genotyper in `scripts/genotype.py`.

The Python program classifies read pairs near structural-variant (SV)
breakpoints as concordant or discordant and converts the two counts into a
genotype call with a Phred-scaled likelihood.  This file gives a shallow
embedding of the program's data model and operations:

* aligned reads (`Read`) and genomic intervals (`Region`) carry exactly the
  fields the script reads off its pysam/pybedtools objects;
* the alignment predicates (`has_perfect_mapping`, `spans_region`, ...) are
  direct translations of lines 35-129 of the script;
* the read-pair classifier `get_depth_for_region` (lines 132-232) is modelled
  with explicit lists: fetching is replaced by an explicit list of fetched
  reads, the Python `set` by `List.dedup`, grouping by name by a map over the
  deduplicated name list, and `sorted(..., key=pos)` by an insertion sort;
* the genotyping model `genotype_call_with_read_pair` (lines 235-276) is
  modelled over `ℕ` counts with real-valued likelihoods (the Python floats
  compute integer-exponent powers, square roots and base-10 logarithms, which
  are embedded as exact real arithmetic).

Machine floats are modelled as real numbers; Python `int()` truncation is
`int_trunc`.
-/

/-- `BAM_CMATCH` constant (line 28 of the script): cigar op code for a match. -/
def BAM_CMATCH : ℕ := 0

/-- `BAM_CSOFT_CLIP` constant (line 29): cigar op code for a soft clip. -/
def BAM_CSOFT_CLIP : ℕ := 4

/-- `DEVIATIONS_FOR_THRESHOLD` constant (line 30). -/
def DEVIATIONS_FOR_THRESHOLD : ℚ := 1.5

/-- `MAX_ERROR_RATE` constant (line 32): at most 2% mismatches. -/
def MAX_ERROR_RATE : ℚ := 0.02

/-- An aligned read, with exactly the pysam fields the script uses.
`nm` is the value of the `NM` tag (`dict(read.tags)["NM"]`), `tlen` is the
template length (pysam exposes it both as `read.tlen` and `read.isize`),
`cigar` is the list of (operation, length) pairs, and `blocks` is
`read.get_blocks()`, the list of aligned reference blocks. -/
structure Read where
  qname : String
  flag : ℕ
  is_secondary : Bool
  is_unmapped : Bool
  mate_is_unmapped : Bool
  is_reverse : Bool
  mapq : ℕ
  nm : ℕ
  qlen : ℕ
  cigar : List (ℕ × ℕ)
  blocks : List (ℤ × ℤ)
  reference_id : ℤ
  reference_start : ℤ
  reference_end : ℤ
  tlen : ℤ
deriving DecidableEq, Inhabited, Repr

/-- pysam's `read.pos` is an alias of `read.reference_start`; the script uses
it as the sort key when ordering a read pair. -/
def Read.pos (read : Read) : ℤ := read.reference_start

/-- pysam's `read.isize` is an alias of `read.tlen`; the script uses the
`isize` spelling inside `is_proper_pair` and the classifier. -/
def Read.isize (read : Read) : ℤ := read.tlen

/-- A genomic interval as used through pybedtools: `chrom`, `start`, `stop`
(pybedtools exposes the end coordinate as both `.end` and `.stop`; `end` is a
Lean keyword so the `stop` spelling is used here). -/
structure Region where
  chrom : String
  start : ℤ
  stop : ℤ
deriving DecidableEq, Inhabited, Repr

/-- `has_perfect_mapping` (lines 35-47): the read is mapped and either has
positive mapping quality with at most `ceil(0.02 * qlen)` mismatches, or
aligns as one full-length match block with zero mismatches. -/
def has_perfect_mapping (read : Read) : Prop :=
  read.is_unmapped = false ∧
  ((0 < read.mapq ∧ (read.nm : ℤ) ≤ ⌈MAX_ERROR_RATE * (read.qlen : ℚ)⌉) ∨
   (read.cigar.length = 1 ∧ (read.cigar.getI 0).1 = BAM_CMATCH ∧
    (read.cigar.getI 0).2 = read.qlen ∧ read.nm = 0))

instance (read : Read) : Decidable (has_perfect_mapping read) :=
  decidable_of_iff
    (read.is_unmapped = false ∧
     ((0 < read.mapq ∧ read.nm ≤ (read.qlen + 49) / 50) ∨
      (read.cigar.length = 1 ∧ (read.cigar.getI 0).1 = BAM_CMATCH ∧
       (read.cigar.getI 0).2 = read.qlen ∧ read.nm = 0)))
    (by
      have key : (⌈MAX_ERROR_RATE * (read.qlen : ℚ)⌉ : ℤ) = ((read.qlen + 49) / 50 : ℕ) := by
        have h1 : 50 * ((read.qlen + 49) / 50) ≤ read.qlen + 49 := by omega
        have h2 : read.qlen ≤ 50 * ((read.qlen + 49) / 50) := by omega
        have h1q : (50 : ℚ) * (((read.qlen + 49) / 50 : ℕ) : ℚ) ≤ (read.qlen : ℚ) + 49 := by
          exact_mod_cast h1
        have h2q : (read.qlen : ℚ) ≤ (50 : ℚ) * (((read.qlen + 49) / 50 : ℕ) : ℚ) := by
          exact_mod_cast h2
        have hm : MAX_ERROR_RATE = 1 / 50 := by norm_num [MAX_ERROR_RATE]
        rw [Int.ceil_eq_iff, hm]
        constructor
        · simp only [Int.cast_natCast]
          linarith
        · simp only [Int.cast_natCast]
          linarith
      unfold has_perfect_mapping
      rw [key]
      simp only [Nat.cast_le])

/-- `spans_region` (lines 50-55): the read starts at or before the region
start and ends at or after the region end. -/
def spans_region (read : Read) (region : Region) : Prop :=
  read.reference_start ≤ region.start ∧ read.reference_end ≥ region.stop

instance (read : Read) (region : Region) : Decidable (spans_region read region) := by
  unfold spans_region; infer_instance

/-- `has_gaps_in_region` (lines 58-70): more than one aligned block of the
read overlaps the (half-open) region, i.e. the alignment is interrupted
inside the region.  The interval-tree query `tree[start:end]` returns the
stored blocks `(a, b)` with `a < end` and `b > start`. -/
def has_gaps_in_region (read : Read) (region : Region) : Prop :=
  1 < (read.blocks.filter
        (fun b => decide (b.1 < region.stop) && decide (region.start < b.2))).length

instance (read : Read) (region : Region) : Decidable (has_gaps_in_region read region) := by
  unfold has_gaps_in_region; infer_instance

/-- `pair_spans_regions` (lines 73-79): the pair has exactly two reads, the
first starts strictly before the first region's start and the second ends
strictly after the last region's end. -/
def pair_spans_regions (read_pair : List Read) (regions : List Region) : Prop :=
  read_pair.length = 2 ∧
  (read_pair.getI 0).reference_start < (regions.getI 0).start ∧
  (read_pair.getI 1).reference_end > (regions.getLastD default).stop

instance (read_pair : List Read) (regions : List Region) :
    Decidable (pair_spans_regions read_pair regions) := by
  unfold pair_spans_regions; infer_instance

/-- `soft_clips_at_breakpoint` (lines 82-101): a perfectly mapped read whose
alignment stops at the region start with a trailing soft clip, or starts at
the region end plus one with a leading soft clip. -/
def soft_clips_at_breakpoint (read : Read) (region : Region) : Prop :=
  has_perfect_mapping read ∧
  ((read.reference_end = region.start ∧ (read.cigar.getLastD (0, 0)).1 = BAM_CSOFT_CLIP) ∨
   (read.reference_start = region.stop + 1 ∧ (read.cigar.getI 0).1 = BAM_CSOFT_CLIP))

instance (read : Read) (region : Region) : Decidable (soft_clips_at_breakpoint read region) := by
  unfold soft_clips_at_breakpoint; infer_instance

/-- `maps_outside_regions` (lines 104-112): the read lies entirely before the
first region's start or entirely after the last region's end. -/
def maps_outside_regions (read : Read) (regions : List Region) : Prop :=
  (read.reference_start < (regions.getI 0).start ∧ read.reference_end < (regions.getI 0).start) ∨
  (read.reference_start > (regions.getLastD default).stop ∧
   read.reference_end > (regions.getLastD default).stop)

instance (read : Read) (regions : List Region) : Decidable (maps_outside_regions read regions) := by
  unfold maps_outside_regions; infer_instance

/-- `is_proper_pair` (lines 115-120): the absolute template length lies
between the two insert-size thresholds. -/
def is_proper_pair (read : Read) (lower_insert_size_threshold upper_insert_size_threshold : ℤ) :
    Prop :=
  lower_insert_size_threshold ≤ |read.isize| ∧ |read.isize| ≤ upper_insert_size_threshold

instance (read : Read) (lo hi : ℤ) : Decidable (is_proper_pair read lo hi) := by
  unfold is_proper_pair; infer_instance

/-- `get_insert_sizes_for_region` (lines 123-129): template lengths of the
fetched reads that have a perfect mapping, a mapped mate, and a template
length between 0 and 1000.  Fetching is modelled by passing the list of reads
the alignment store returns for the region. -/
def get_insert_sizes_for_region (fetched : List Read) : List ℤ :=
  (fetched.filter
    (fun read => decide (has_perfect_mapping read) && !read.mate_is_unmapped &&
      decide (read.tlen ≥ 0) && decide (read.tlen ≤ 1000))).map Read.tlen

/-- Insertion sort step for `sortByPos`. -/
def insertPos (read : Read) : List Read → List Read
  | [] => [read]
  | x :: xs => if read.pos ≤ x.pos then read :: x :: xs else x :: insertPos read xs

/-- `sorted(read_pair, key=operator.attrgetter("pos"))` (line 174): sort a
read pair by ascending reference position. -/
def sortByPos (reads : List Read) : List Read :=
  reads.foldr insertPos []

/-- Sort a list of integers ascending (used by `median` below, as `np.median`
sorts its input). -/
def sortInts (xs : List ℤ) : List ℤ :=
  xs.foldr (fun x acc => acc.orderedInsert (· ≤ ·) x) []

/-- `np.median` (line 309): middle element of the sorted list, or the mean of
the two middle elements for an even length. -/
def median (xs : List ℤ) : ℚ :=
  let s := sortInts xs
  let n := s.length
  if n % 2 = 1 then (s.getI (n / 2) : ℚ)
  else (((s.getI (n / 2 - 1) + s.getI (n / 2) : ℤ) : ℚ)) / 2

/-- Mean of a list of integers (used by `np.std`). -/
def listMean (xs : List ℤ) : ℚ := (xs.sum : ℚ) / xs.length

/-- Population variance, as computed by `np.std` (default `ddof=0`). -/
def listVariance (xs : List ℤ) : ℚ :=
  ((xs.map (fun x => ((x : ℚ) - listMean xs) ^ 2)).sum) / xs.length

/-- `np.std` (line 310): population standard deviation. -/
noncomputable def listStd (xs : List ℤ) : ℝ := Real.sqrt (listVariance xs)

/-- Python `int()` on a float: truncation toward zero. -/
noncomputable def int_trunc (x : ℝ) : ℤ := if 0 ≤ x then ⌊x⌋ else ⌈x⌉

/-- Lines 304-312 of `__main__`: pool the insert sizes of all copy-number-2
control regions (one fetched read list per region), then set
`lower_insert_threshold = int(median - 1.5 * std)` and
`upper_insert_threshold = int(median + 1.5 * std)`.  The script names the
median `mean_insert_size` (the name is historical; the statistic is the
median). -/
noncomputable def sample_insert_thresholds (region_reads : List (List Read)) : ℤ × ℤ :=
  let insert_sizes := (region_reads.map get_insert_sizes_for_region).flatten
  let mean_insert_size : ℝ := (median insert_sizes : ℝ)
  let std_insert_size : ℝ := listStd insert_sizes
  (int_trunc (mean_insert_size - (DEVIATIONS_FOR_THRESHOLD : ℝ) * std_insert_size),
   int_trunc (mean_insert_size + (DEVIATIONS_FOR_THRESHOLD : ℝ) * std_insert_size))

/-- The `discordant_genotype_likelihood` term of the no-call branch
(line 245): `2^discordant / 2^5`. -/
noncomputable def discordant_genotype_likelihood (discordant : ℕ) : ℝ :=
  (2 : ℝ) ^ discordant / (2 : ℝ) ^ (5 : ℕ)

/-- The `concordant_genotype_likelihood` term of the no-call branch
(line 246): `2^concordant / 2^5`. -/
noncomputable def concordant_genotype_likelihood (concordant : ℕ) : ℝ :=
  (2 : ℝ) ^ concordant / (2 : ℝ) ^ (5 : ℕ)

/-- The `genotype_ratio` value shared by the heterozygous and
homozygous-reference branches (lines 264 and 272, textually identical):
`2^|discordant - 4*concordant| / 2^(4*concordant)`, with real exponents as in
the floating-point source. -/
noncomputable def genotype_frac (concordant discordant : ℕ) : ℝ :=
  (2 : ℝ) ^ |(discordant : ℝ) - (concordant : ℝ) * 4| / (2 : ℝ) ^ ((concordant : ℝ) * 4)

/-- The likelihood computed by the heterozygous ("1/0") branch
(lines 264-265): `floor(-10 * log10(1 - min(genotype_ratio, 1)))`. -/
noncomputable def het_branch_likelihood (concordant discordant : ℕ) : ℤ :=
  ⌊(-10 : ℝ) * Real.logb 10 (1 - min (genotype_frac concordant discordant) 1)⌋

/-- `genotype_call_with_read_pair` (lines 235-276).  The
`homozygous_deletion_threshold` is the constant 5 (line 241; the `std_depth`
argument is accepted but unused, exactly as in the source).  Counts are
naturals; the likelihood is the floor of the real-valued Phred expression. -/
noncomputable def genotype_call_with_read_pair (concordant discordant : ℕ) (std_depth : ℤ) :
    String × ℤ :=
  if concordant < 5 ∧ discordant < 5 then
    ("./.",
     ⌊(-10 : ℝ) * Real.logb 10 (Real.sqrt
        ((concordant_genotype_likelihood concordant) ^ 2 +
         (discordant_genotype_likelihood discordant) ^ 2))⌋)
  else if (discordant : ℚ) < (concordant : ℚ) * 0.25 then
    ("1/1",
     ⌊(-10 : ℝ) * Real.logb 10
        ((2 : ℝ) ^ discordant / (2 : ℝ) ^ ((concordant : ℝ) * 0.25))⌋)
  else if (concordant : ℚ) * 0.25 ≤ (discordant : ℚ) ∧ (discordant : ℚ) < (concordant : ℚ) * 4 then
    ("1/0", het_branch_likelihood concordant discordant)
  else
    ("0/0",
     ⌊(-10 : ℝ) * Real.logb 10 (1 - min (genotype_frac concordant discordant) 1)⌋)

/-- The per-pair classification chain of `get_depth_for_region`
(lines 148-225): given the insert-size thresholds, the breakpoint intervals,
the region type and a position-sorted read pair, return `some true` for
concordant, `some false` for discordant, `none` for unclassified
(`is_concordant` staying `None`).  `sv_coordinates` is the interval from the
first breakpoint's start to the last breakpoint's end (line 152).
`read_pair[1]` is only inspected under a `length = 2` (or short-circuiting)
guard, exactly as in the Python; `List.getI` supplies an irrelevant default
read outside those guards. -/
def classify (lower_insert_threshold upper_insert_threshold : ℤ) (breakpoints : List Region)
    (region_type : String) (read_pair : List Read) : Option Bool :=
  let sv_coordinates : Region :=
    ⟨(breakpoints.getI 0).chrom, (breakpoints.getI 0).start, (breakpoints.getLastD default).stop⟩
  let r0 := read_pair.getI 0
  let r1 := read_pair.getI 1
  if region_type = "insertion" then
    if read_pair.any (fun read =>
        decide (spans_region read sv_coordinates) &&
        decide (has_gaps_in_region read sv_coordinates)) then
      some false
    else if breakpoints.any (fun region => decide (soft_clips_at_breakpoint r0 region)) ∨
        (read_pair.length = 2 ∧
         breakpoints.any (fun region => decide (soft_clips_at_breakpoint r1 region))) then
      some false
    else if r0.is_reverse = false ∧ has_perfect_mapping r0 ∧
        spans_region r0 (breakpoints.getI 0) then
      some true
    else if read_pair.length = 2 ∧ r1.is_reverse = true ∧ has_perfect_mapping r1 ∧
        spans_region r1 (breakpoints.getLastD default) then
      some true
    else if read_pair.length = 2 ∧ has_perfect_mapping r0 ∧ has_perfect_mapping r1 ∧
        r0.is_reverse = false ∧ r1.is_reverse = true then
      if (maps_outside_regions r0 breakpoints ∧ ¬ maps_outside_regions r1 breakpoints) ∨
         (¬ maps_outside_regions r0 breakpoints ∧ maps_outside_regions r1 breakpoints) ∨
         (maps_outside_regions r0 breakpoints ∧ spans_region r1 (breakpoints.getI 0)) ∨
         (spans_region r0 (breakpoints.getLastD default) ∧ maps_outside_regions r1 breakpoints) then
        some true
      else if |r0.isize| > upper_insert_threshold then
        some false
      else none
    else none
  else if region_type = "deletion" then
    if read_pair.length = 2 ∧ has_perfect_mapping r0 ∧ has_perfect_mapping r1 ∧
        r0.is_reverse = false ∧ r1.is_reverse = true ∧
        pair_spans_regions read_pair breakpoints ∧
        is_proper_pair r0 lower_insert_threshold upper_insert_threshold then
      some true
    else if read_pair.length = 2 ∧ has_perfect_mapping r0 ∧ has_perfect_mapping r1 ∧
        r0.is_reverse = false ∧ r1.is_reverse = true ∧
        pair_spans_regions read_pair breakpoints ∧ |r0.isize| < lower_insert_threshold then
      some false
    else if has_perfect_mapping r0 ∧ r0.is_reverse = false ∧
        r0.reference_end < (breakpoints.getI 0).start ∧
        (read_pair.length = 1 ∨ r1.is_unmapped = true ∨ r1.reference_id ≠ r0.reference_id) then
      some false
    else if read_pair.length = 1 ∧ has_perfect_mapping r0 ∧ r0.is_reverse = true ∧
        r0.reference_start > (breakpoints.getLastD default).stop then
      some false
    else if read_pair.length = 2 ∧ has_perfect_mapping r1 ∧ r1.is_reverse = true ∧
        r1.reference_start > (breakpoints.getLastD default).stop ∧
        (r0.is_unmapped = true ∨ r0.reference_id ≠ r1.reference_id) then
      some false
    else if soft_clips_at_breakpoint r0 (breakpoints.getI 0) ∨
        (read_pair.length = 2 ∧ soft_clips_at_breakpoint r1 (breakpoints.getI 0)) then
      some false
    else none
  else
    if read_pair.length = 2 ∧ has_perfect_mapping r0 ∧ has_perfect_mapping r1 ∧
        r0.is_reverse = false ∧ r1.is_reverse = true ∧
        is_proper_pair r0 lower_insert_threshold upper_insert_threshold then
      some true
    else none

/-- Line 159's read filter: drop secondary alignments and reads with the
supplementary flag (0x800) set. -/
def keep (read : Read) : Bool :=
  !read.is_secondary && (read.flag &&& 0x800 == 0)

/-- Lines 154-160: the distinct surviving reads fetched from the padded
regions.  The Python `set` of reads is modelled by `List.dedup` over the
fetched list. -/
def kept_reads (fetched : List Read) : List Read :=
  (fetched.filter keep).dedup

/-- The distinct read names of the surviving reads (the keys of
`reads_by_name`, lines 162-165). -/
def pair_names (fetched : List Read) : List String :=
  ((kept_reads fetched).map Read.qname).dedup

/-- The position-sorted read pair grouped under one read name
(lines 163-165 and 174). -/
def read_pair_for (fetched : List Read) (name : String) : List Read :=
  sortByPos ((kept_reads fetched).filter (fun read => read.qname == name))

/-- All read pairs of one classification call, one per distinct read name. -/
def read_pairs (fetched : List Read) : List (List Read) :=
  (pair_names fetched).map (read_pair_for fetched)

/-- `get_depth_for_region` (lines 132-232): classify every read pair and
return the list of concordant pairs and the list of discordant pairs
(`is_concordant` true appends to the first, `is_concordant is False` to the
second, `None` to neither). -/
def get_depth_for_region (lower_insert_threshold upper_insert_threshold : ℤ)
    (breakpoints : List Region) (region_type : String) (fetched : List Read) :
    List (List Read) × List (List Read) :=
  ((read_pairs fetched).filter (fun read_pair =>
      decide (classify lower_insert_threshold upper_insert_threshold breakpoints region_type
        read_pair = some true)),
   (read_pairs fetched).filter (fun read_pair =>
      decide (classify lower_insert_threshold upper_insert_threshold breakpoints region_type
        read_pair = some false)))

/-- One invocation of `get_depth_for_region` in the main loop (line 396): the
sample's thresholds, the SV's breakpoint intervals, the SV type and the reads
fetched from the padded regions. -/
structure DepthCall where
  lower : ℤ
  upper : ℤ
  breakpoints : List Region
  region_type : String
  fetched : List Read
deriving Inhabited

/-- Lines 400-402: over a run, every read of every concordant pair of every
classification call is written to `concordant_reads.bam`. -/
def concordant_stream (run : List DepthCall) : List Read :=
  (run.map (fun call =>
    ((get_depth_for_region call.lower call.upper call.breakpoints call.region_type
        call.fetched).1).flatten)).flatten

/-- Lines 404-406: over a run, every read of every discordant pair of every
classification call is written to `discordant_reads.bam`. -/
def discordant_stream (run : List DepthCall) : List Read :=
  (run.map (fun call =>
    ((get_depth_for_region call.lower call.upper call.breakpoints call.region_type
        call.fetched).2).flatten)).flatten

/-- Forward read of a concrete pair: mapped, mate mapped, mapping quality 60,
no mismatches, 100 bp with a trailing 20 bp soft clip, aligned to
`chr1:[1400,1500)`, template length 2200. -/
def demo_r0 : Read :=
  { qname := "p1", flag := 0, is_secondary := false, is_unmapped := false,
    mate_is_unmapped := false, is_reverse := false, mapq := 60, nm := 0, qlen := 100,
    cigar := [(0, 100), (4, 20)], blocks := [(1400, 1500)], reference_id := 0,
    reference_start := 1400, reference_end := 1500, tlen := 2200 }

/-- Reverse mate of `demo_r0`, aligned to `chr1:[3500,3600)`. -/
def demo_r1 : Read :=
  { qname := "p1", flag := 0, is_secondary := false, is_unmapped := false,
    mate_is_unmapped := false, is_reverse := true, mapq := 60, nm := 0, qlen := 100,
    cigar := [(0, 100)], blocks := [(3500, 3600)], reference_id := 0,
    reference_start := 3500, reference_end := 3600, tlen := -2200 }

/-- A deletion call with breakpoints `chr1:[2000,3000)`. -/
def demo_del1 : Region := ⟨"chr1", 2000, 3000⟩

/-- A second deletion call with breakpoints `chr1:[1500,5000)`. -/
def demo_del2 : Region := ⟨"chr1", 1500, 5000⟩

/-- A run of two classification calls over the same sample (thresholds
2000/2500) and the same fetched pair, against the two deletion calls. -/
def demo_run : List DepthCall :=
  [⟨2000, 2500, [demo_del1], "deletion", [demo_r0, demo_r1]⟩,
   ⟨2000, 2500, [demo_del2], "deletion", [demo_r0, demo_r1]⟩]

/-- Forward read of the spec's deletion scenario: `[900,999]`, forward,
perfectly mapped, template length 1200. -/
def span_r0 : Read :=
  { qname := "q1", flag := 0, is_secondary := false, is_unmapped := false,
    mate_is_unmapped := false, is_reverse := false, mapq := 60, nm := 0, qlen := 100,
    cigar := [(0, 100)], blocks := [(900, 999)], reference_id := 0,
    reference_start := 900, reference_end := 999, tlen := 1200 }

/-- Reverse mate of the spec's deletion scenario: `[2001,2100]`, reverse. -/
def span_r1 : Read :=
  { qname := "q1", flag := 0, is_secondary := false, is_unmapped := false,
    mate_is_unmapped := false, is_reverse := true, mapq := 60, nm := 0, qlen := 100,
    cigar := [(0, 100)], blocks := [(2001, 2100)], reference_id := 0,
    reference_start := 2001, reference_end := 2100, tlen := -1200 }

/-- The deletion breakpoints `[1000,2000)` of the spec's scenario. -/
def span_bp : Region := ⟨"chr1", 1000, 2000⟩

/-- An unmapped read with otherwise favorable fields (positive mapping
quality, zero mismatches, full-length match block). -/
def unmapped_read : Read :=
  { qname := "u1", flag := 4, is_secondary := false, is_unmapped := true,
    mate_is_unmapped := true, is_reverse := false, mapq := 60, nm := 0, qlen := 100,
    cigar := [(0, 100)], blocks := [], reference_id := -1,
    reference_start := 0, reference_end := 0, tlen := 0 }

/-- Membership in an insertion-sort step. -/
theorem mem_insertPos {read a : Read} {l : List Read} :
    a ∈ insertPos read l ↔ a = read ∨ a ∈ l := by
  induction l with
  | nil => simp [insertPos]
  | cons x xs ih =>
    unfold insertPos
    split
    · simp [List.mem_cons]
    · simp only [List.mem_cons, ih]
      tauto

/-- Sorting a read pair by position does not change its members. -/
theorem mem_sortByPos {a : Read} {l : List Read} : a ∈ sortByPos l ↔ a ∈ l := by
  unfold sortByPos
  induction l with
  | nil => simp
  | cons x xs ih => simp [mem_insertPos, ih]

/-- Every read of the pair grouped under a name carries that name. -/
theorem qname_of_mem_read_pair_for {fetched : List Read} {n : String} {read : Read}
    (h : read ∈ read_pair_for fetched n) : read.qname = n := by
  unfold read_pair_for at h
  rw [mem_sortByPos] at h
  simpa using (List.mem_filter.mp h).2

/-- Two read pairs of one classification call sharing a read are equal: each
pair collects exactly the reads of one name. -/
theorem read_pairs_disjoint {fetched : List Read} {p q : List Read} {read : Read}
    (hp : p ∈ read_pairs fetched) (hq : q ∈ read_pairs fetched)
    (hrp : read ∈ p) (hrq : read ∈ q) : p = q := by
  unfold read_pairs at hp hq
  obtain ⟨n1, _, rfl⟩ := List.mem_map.mp hp
  obtain ⟨n2, _, rfl⟩ := List.mem_map.mp hq
  have e1 := qname_of_mem_read_pair_for hrp
  have e2 := qname_of_mem_read_pair_for hrq
  rw [e1.symm.trans e2]

/-- C4: `has_perfect_mapping` is false for every unmapped read regardless of
its other fields, and for a mapped read it holds iff the read has positive
mapping quality with edit distance at most `ceil(0.02 * read length)`, or is
a single full-length match block with edit distance 0. -/
theorem has_perfect_mapping_spec (read : Read) :
    (read.is_unmapped = true → ¬ has_perfect_mapping read) ∧
    (read.is_unmapped = false →
      (has_perfect_mapping read ↔
        ((0 < read.mapq ∧ (read.nm : ℤ) ≤ ⌈(0.02 : ℚ) * (read.qlen : ℚ)⌉) ∨
         (read.cigar.length = 1 ∧ (read.cigar.getI 0).1 = BAM_CMATCH ∧
          (read.cigar.getI 0).2 = read.qlen ∧ read.nm = 0)))) := by
  constructor
  · intro hu hperf
    unfold has_perfect_mapping at hperf
    rw [hu] at hperf
    cases hperf.1
  · intro hu
    unfold has_perfect_mapping MAX_ERROR_RATE
    simp [hu]

/-- C4 witness: an unmapped read with favorable remaining fields has no
perfect mapping. -/
theorem has_perfect_mapping_spec_witness : ¬ has_perfect_mapping unmapped_read :=
  (has_perfect_mapping_spec unmapped_read).1 rfl

/-- C5: `spans_region` is monotonic under sub-intervals: a read spanning a
region spans every region contained in it. -/
theorem spans_region_mono (read : Read) (R Rsub : Region)
    (hstart : R.start ≤ Rsub.start) (hstop : Rsub.stop ≤ R.stop)
    (hspan : spans_region read R) : spans_region read Rsub := by
  unfold spans_region at hspan ⊢
  exact ⟨le_trans hspan.1 hstart, le_trans hstop hspan.2⟩

/-- C5 witness: a read spanning `[930,980]` of chr1 spans the sub-interval
`[950,960]`. -/
theorem spans_region_mono_witness : spans_region span_r0 ⟨"chr1", 950, 960⟩ :=
  spans_region_mono span_r0 ⟨"chr1", 930, 980⟩ ⟨"chr1", 950, 960⟩ (by decide) (by decide)
    (by decide)

/-- C1 counterexample: at concordant count 4 and discordant count 1 both
counts are below the no-call threshold 5, so the genotype is "./." and not
"1/1" as claimed. -/
theorem genotype_boundary_claim_false :
    (genotype_call_with_read_pair 4 1 5).1 ≠ "1/1" := by decide

/-- C1 (amended): (C=4, D=1) falls in the no-call branch and yields "./.";
(C=4, D=8) yields "1/0" and (C=4, D=20) yields "0/0". -/
theorem genotype_boundary_amended :
    (genotype_call_with_read_pair 4 1 5).1 = "./." ∧
    (genotype_call_with_read_pair 4 8 5).1 = "1/0" ∧
    (genotype_call_with_read_pair 4 20 5).1 = "0/0" := by
  refine ⟨rfl, ?_, ?_⟩
  · norm_num [genotype_call_with_read_pair]
  · norm_num [genotype_call_with_read_pair]

/-- C8: the classifier is deterministic and idempotent: two evaluations of
`get_depth_for_region` on one fixed input (fetched reads, thresholds,
breakpoints, SV type) give identical concordant and discordant pair counts
and hence the same genotype call.  The embedding is a pure function of
exactly these inputs, as the source computes from no other state. -/
theorem classifier_deterministic (lo hi : ℤ) (bps : List Region) (t : String)
    (fetched : List Read) (s : ℤ) :
    ((get_depth_for_region lo hi bps t fetched).1.length,
     (get_depth_for_region lo hi bps t fetched).2.length) =
      ((get_depth_for_region lo hi bps t fetched).1.length,
       (get_depth_for_region lo hi bps t fetched).2.length) ∧
    genotype_call_with_read_pair (get_depth_for_region lo hi bps t fetched).1.length
        (get_depth_for_region lo hi bps t fetched).2.length s =
      genotype_call_with_read_pair (get_depth_for_region lo hi bps t fetched).1.length
        (get_depth_for_region lo hi bps t fetched).2.length s :=
  ⟨rfl, rfl⟩

/-- C9: for a deletion, a sorted two-read pair with both reads perfectly
mapped, forward/reverse orientation, spanning both breakpoints, and a proper
first-read template length is classified concordant by the first rule of the
deletion chain. -/
theorem deletion_rule_a_concordant (lo hi : ℤ) (bps : List Region) (r0 r1 : Read)
    (h0 : has_perfect_mapping r0) (h1 : has_perfect_mapping r1)
    (hf : r0.is_reverse = false) (hr : r1.is_reverse = true)
    (hs : pair_spans_regions [r0, r1] bps)
    (hp : is_proper_pair r0 lo hi) :
    classify lo hi bps "deletion" [r0, r1] = some true := by
  unfold classify
  rw [if_neg (by decide : ¬("deletion" = "insertion"))]
  rw [if_pos (rfl : "deletion" = "deletion")]
  rw [if_pos ⟨rfl, h0, h1, hf, hr, hs, hp⟩]

/-- C9 witness: the spec's concrete scenario — breakpoints `[1000,2000)`,
mate 1 at `[900,999]` forward, mate 2 at `[2001,2100]` reverse, template
length 1200 within thresholds `[1100,1300]` — is classified concordant. -/
theorem deletion_rule_a_concordant_witness :
    has_perfect_mapping span_r0 ∧ is_proper_pair span_r0 1100 1300 ∧
    classify 1100 1300 [span_bp] "deletion" [span_r0, span_r1] = some true :=
  ⟨by decide, by decide,
   deletion_rule_a_concordant 1100 1300 [span_bp] span_r0 span_r1 (by decide) (by decide)
     (by decide) (by decide) (by decide) (by decide)⟩

/-- C2: for all counts below the threshold 5 the model returns "./." with
likelihood `floor(-10 * log10(sqrt((2^D/2^5)^2 + (2^C/2^5)^2)))`, and at
C = D = 0 the two likelihood terms under the square root are equal. -/
theorem genotype_no_call_spec :
    (∀ (c d : ℕ) (s : ℤ), c < 5 → d < 5 →
        genotype_call_with_read_pair c d s =
          ("./.",
           ⌊(-10 : ℝ) * Real.logb 10 (Real.sqrt
              (((2 : ℝ) ^ d / (2 : ℝ) ^ (5 : ℕ)) ^ 2 +
               ((2 : ℝ) ^ c / (2 : ℝ) ^ (5 : ℕ)) ^ 2))⌋)) ∧
    (discordant_genotype_likelihood 0) ^ 2 = (concordant_genotype_likelihood 0) ^ 2 := by
  constructor
  · intro c d s hc hd
    unfold genotype_call_with_read_pair
    rw [if_pos ⟨hc, hd⟩]
    have harg : (concordant_genotype_likelihood c) ^ 2 + (discordant_genotype_likelihood d) ^ 2 =
        ((2 : ℝ) ^ d / (2 : ℝ) ^ (5 : ℕ)) ^ 2 + ((2 : ℝ) ^ c / (2 : ℝ) ^ (5 : ℕ)) ^ 2 := by
      unfold concordant_genotype_likelihood discordant_genotype_likelihood
      ring
    rw [harg]
  · unfold discordant_genotype_likelihood concordant_genotype_likelihood
    rfl

/-- C2 witness: the no-call result at concordant 3, discordant 2. -/
theorem genotype_no_call_spec_witness :
    (3 : ℕ) < 5 ∧
    genotype_call_with_read_pair 3 2 5 =
      ("./.",
       ⌊(-10 : ℝ) * Real.logb 10 (Real.sqrt
          (((2 : ℝ) ^ (2 : ℕ) / (2 : ℝ) ^ (5 : ℕ)) ^ 2 +
           ((2 : ℝ) ^ (3 : ℕ) / (2 : ℝ) ^ (5 : ℕ)) ^ 2))⌋) :=
  ⟨by decide, genotype_no_call_spec.1 3 2 5 (by decide) (by decide)⟩

/-- C3: outside the no-call branch, once `D ≥ 0.25*C` the model returns the
heterozygous formula `floor(-10 * log10(1 - min(2^|D-4C|/2^(4C), 1)))` both
on the "1/0" branch (when `D < 4*C`) and on the "0/0" branch (when
`D ≥ 4*C`): the two branches compute one and the same likelihood function
and differ only in the genotype string. -/
theorem genotype_homref_het_same_formula (c d : ℕ) (s : ℤ)
    (hnc : ¬(c < 5 ∧ d < 5)) (hlow : (c : ℚ) * 0.25 ≤ (d : ℚ)) :
    ((d : ℚ) < (c : ℚ) * 4 →
      genotype_call_with_read_pair c d s = ("1/0", het_branch_likelihood c d)) ∧
    ((c : ℚ) * 4 ≤ (d : ℚ) →
      genotype_call_with_read_pair c d s = ("0/0", het_branch_likelihood c d)) := by
  constructor
  · intro hup
    unfold genotype_call_with_read_pair
    rw [if_neg hnc, if_neg (not_lt.mpr hlow), if_pos ⟨hlow, hup⟩]
  · intro hup
    unfold genotype_call_with_read_pair
    rw [if_neg hnc, if_neg (not_lt.mpr hlow),
      if_neg (fun h => absurd h.2 (not_lt.mpr hup))]
    rfl

/-- C3 witness: at concordant 1, discordant 9 the "0/0" branch fires and
returns the heterozygous branch's likelihood. -/
theorem genotype_homref_het_same_formula_witness :
    ¬((1 : ℕ) < 5 ∧ (9 : ℕ) < 5) ∧
    genotype_call_with_read_pair 1 9 5 = ("0/0", het_branch_likelihood 1 9) :=
  ⟨by decide,
   (genotype_homref_het_same_formula 1 9 5 (by decide) (by norm_num)).2 (by norm_num)⟩

/-- C10: with concordant count 0 and discordant count at least 5, both
expected-discordant bounds `0.25*C` and `4*C` are 0, the genotype is "0/0"
however large D is, and the likelihood ratio saturates at 1, so the argument
of the base-10 logarithm is exactly 0 (the Phred expression is the
log-of-zero limiting value, `+inf` in the floating-point source, rather than
a finite score). -/
theorem genotype_zero_concordant_spec (d : ℕ) (s : ℤ) (h5 : 5 ≤ d) :
    ((0 : ℕ) : ℚ) * 0.25 = 0 ∧ ((0 : ℕ) : ℚ) * 4 = 0 ∧
    (genotype_call_with_read_pair 0 d s).1 = "0/0" ∧
    min (genotype_frac 0 d) 1 = 1 ∧
    (1 : ℝ) - min (genotype_frac 0 d) 1 = 0 := by
  have hfrac : genotype_frac 0 d = (2 : ℝ) ^ d := by
    unfold genotype_frac
    rw [Nat.cast_zero, zero_mul, sub_zero, Real.rpow_zero, div_one,
      abs_of_nonneg (by positivity : (0 : ℝ) ≤ (d : ℝ)), Real.rpow_natCast]
  have hge : (1 : ℝ) ≤ (2 : ℝ) ^ d := one_le_pow₀ (by norm_num)
  have hs1 : ¬((0 : ℕ) < 5 ∧ d < 5) := by omega
  have hs2 : ¬((d : ℚ) < ((0 : ℕ) : ℚ) * 0.25) := by
    rw [Nat.cast_zero, zero_mul, not_lt]
    positivity
  have hs3 : ¬(((0 : ℕ) : ℚ) * 0.25 ≤ (d : ℚ) ∧ (d : ℚ) < ((0 : ℕ) : ℚ) * 4) := by
    rintro ⟨-, hlt⟩
    rw [Nat.cast_zero, zero_mul] at hlt
    exact absurd hlt (not_lt.mpr (by positivity))
  refine ⟨by norm_num, by norm_num, ?_, ?_, ?_⟩
  · unfold genotype_call_with_read_pair
    rw [if_neg hs1, if_neg hs2, if_neg hs3]
  · rw [hfrac]
    exact min_eq_right hge
  · rw [hfrac, min_eq_right hge]
    norm_num

/-- C10 witness: the statement at discordant count 5. -/
theorem genotype_zero_concordant_spec_witness :
    ((0 : ℕ) : ℚ) * 0.25 = 0 ∧ ((0 : ℕ) : ℚ) * 4 = 0 ∧
    (genotype_call_with_read_pair 0 5 5).1 = "0/0" ∧
    min (genotype_frac 0 5) 1 = 1 ∧
    (1 : ℝ) - min (genotype_frac 0 5) 1 = 0 :=
  genotype_zero_concordant_spec 5 5 (by decide)

/-- C6: a read contributes its template length to the insert-size sample iff
it has a perfect mapping, a mapped mate and a template length in `[0,1000]`;
and over the pooled control regions the sample's thresholds are
`int(median - 1.5*std)` and `int(median + 1.5*std)` of exactly the included
template lengths. -/
theorem insert_size_estimator_spec (region_reads : List (List Read)) :
    (∀ read : Read,
        read.tlen ∈ get_insert_sizes_for_region [read] ↔
          (has_perfect_mapping read ∧ read.mate_is_unmapped = false ∧
           0 ≤ read.tlen ∧ read.tlen ≤ 1000)) ∧
    sample_insert_thresholds region_reads =
      (int_trunc
        ((median (((region_reads.flatten).filter
            (fun read => decide (has_perfect_mapping read) && !read.mate_is_unmapped &&
              decide (read.tlen ≥ 0) && decide (read.tlen ≤ 1000))).map Read.tlen) : ℝ) -
         1.5 * listStd (((region_reads.flatten).filter
            (fun read => decide (has_perfect_mapping read) && !read.mate_is_unmapped &&
              decide (read.tlen ≥ 0) && decide (read.tlen ≤ 1000))).map Read.tlen)),
       int_trunc
        ((median (((region_reads.flatten).filter
            (fun read => decide (has_perfect_mapping read) && !read.mate_is_unmapped &&
              decide (read.tlen ≥ 0) && decide (read.tlen ≤ 1000))).map Read.tlen) : ℝ) +
         1.5 * listStd (((region_reads.flatten).filter
            (fun read => decide (has_perfect_mapping read) && !read.mate_is_unmapped &&
              decide (read.tlen ≥ 0) && decide (read.tlen ≤ 1000))).map Read.tlen))) := by
  constructor
  · intro read
    unfold get_insert_sizes_for_region
    constructor
    · intro h
      obtain ⟨r, hr, htl⟩ := List.mem_map.mp h
      obtain ⟨hmem, hcond⟩ := List.mem_filter.mp hr
      rw [List.mem_singleton] at hmem
      subst hmem
      simp only [Bool.and_eq_true, decide_eq_true_eq, Bool.not_eq_true'] at hcond
      exact ⟨hcond.1.1.1, hcond.1.1.2, hcond.1.2, hcond.2⟩
    · rintro ⟨hP, hm, h0, h1⟩
      apply List.mem_map.mpr
      refine ⟨read, List.mem_filter.mpr ⟨List.mem_singleton.mpr rfl, ?_⟩, rfl⟩
      simp only [Bool.and_eq_true, decide_eq_true_eq, Bool.not_eq_true']
      exact ⟨⟨⟨hP, hm⟩, h0⟩, h1⟩
  · unfold sample_insert_thresholds
    have hsizes : ((region_reads.map get_insert_sizes_for_region).flatten) =
        (((region_reads.flatten).filter
            (fun read => decide (has_perfect_mapping read) && !read.mate_is_unmapped &&
              decide (read.tlen ≥ 0) && decide (read.tlen ≤ 1000))).map Read.tlen) := by
      induction region_reads with
      | nil => rfl
      | cons x xs ih =>
        simp only [List.map_cons, List.flatten_cons, List.filter_append, List.map_append, ih,
          get_insert_sizes_for_region]
    rw [hsizes]
    norm_num [DEVIATIONS_FOR_THRESHOLD]

/-- C7 counterexample: over a two-call run, the pair `demo_r0`/`demo_r1` is
concordant for the first deletion call and discordant (soft clip at the
breakpoint) for the second, so `demo_r0` is written to both the concordant
and the discordant output stream. -/
theorem concordant_discordant_stream_overlap :
    demo_r0 ∈ concordant_stream demo_run ∧ demo_r0 ∈ discordant_stream demo_run := by decide

/-- C7 (amended): within one classification call the claimed round-trip
invariants hold — every read of the flattened concordant output belongs to
exactly one concordant pair, no read lies in both the concordant and the
discordant output of that call, and no pair is appended to both lists.
Across a whole run with several SV calls the same read can legitimately be
written to both streams (see the counterexample). -/
theorem get_depth_partition (lo hi : ℤ) (bps : List Region) (t : String)
    (fetched : List Read) :
    (∀ read : Read,
        read ∈ ((get_depth_for_region lo hi bps t fetched).1).flatten →
        ∃! p, p ∈ (get_depth_for_region lo hi bps t fetched).1 ∧ read ∈ p) ∧
    (∀ read : Read,
        ¬(read ∈ ((get_depth_for_region lo hi bps t fetched).1).flatten ∧
          read ∈ ((get_depth_for_region lo hi bps t fetched).2).flatten)) ∧
    (∀ p : List Read,
        ¬(p ∈ (get_depth_for_region lo hi bps t fetched).1 ∧
          p ∈ (get_depth_for_region lo hi bps t fetched).2)) := by
  have hsub1 : ∀ {p : List Read}, p ∈ (get_depth_for_region lo hi bps t fetched).1 →
      p ∈ read_pairs fetched ∧ classify lo hi bps t p = some true := by
    intro p hp
    unfold get_depth_for_region at hp
    have h := List.mem_filter.mp hp
    exact ⟨h.1, of_decide_eq_true h.2⟩
  have hsub2 : ∀ {p : List Read}, p ∈ (get_depth_for_region lo hi bps t fetched).2 →
      p ∈ read_pairs fetched ∧ classify lo hi bps t p = some false := by
    intro p hp
    unfold get_depth_for_region at hp
    have h := List.mem_filter.mp hp
    exact ⟨h.1, of_decide_eq_true h.2⟩
  refine ⟨?_, ?_, ?_⟩
  · intro read hread
    obtain ⟨p, hpmem, hrp⟩ := List.mem_flatten.mp hread
    refine ⟨p, ⟨hpmem, hrp⟩, ?_⟩
    rintro q ⟨hqmem, hrq⟩
    exact read_pairs_disjoint (hsub1 hqmem).1 (hsub1 hpmem).1 hrq hrp
  · rintro read ⟨h1, h2⟩
    obtain ⟨p, hp, hrp⟩ := List.mem_flatten.mp h1
    obtain ⟨q, hq, hrq⟩ := List.mem_flatten.mp h2
    have hpq := read_pairs_disjoint (hsub1 hp).1 (hsub2 hq).1 hrp hrq
    have hc := (hsub1 hp).2
    rw [hpq, (hsub2 hq).2] at hc
    cases hc
  · rintro p ⟨h1, h2⟩
    have hc := (hsub1 h1).2
    rw [(hsub2 h2).2] at hc
    cases hc

/-- C7 witness: in the single first demo call, `demo_r0` belongs to exactly
one concordant pair. -/
theorem get_depth_partition_witness :
    ∃! p, p ∈ (get_depth_for_region 2000 2500 [demo_del1] "deletion" [demo_r0, demo_r1]).1 ∧
      demo_r0 ∈ p :=
  (get_depth_partition 2000 2500 [demo_del1] "deletion" [demo_r0, demo_r1]).1 demo_r0
    (by decide)
